import Mathlib

set_option maxRecDepth 100000
set_option maxHeartbeats 1000000

attribute [local semireducible] Rat.mul Rat.add Rat.sub Rat.inv Rat.ofScientific

/-!
# Verification of the pool-game simulation core (src/main.c)

This file is a shallow embedding of the physics/simulation core of the
8-ball pool program: the `Ball` data model, the per-tick physics step
(`update`), the shot handler (`shoot`), and the table setup
(`setupTable`/`resetGame`).  Machine floats are modelled by exact rational
arithmetic (`ℚ`).  The C comparisons of the form `sqrt e < c` (with
`c ≥ 0`) are embedded as `e < c * c`, which is exactly equivalent over the
reals; the one irreducible square root — the collision distance
`dist = sqrt(distSq)` that the C code divides by — is embedded by
`ratSqrt`, a rational square root that is exact whenever the radicand is
the square of a rational (all general theorems about the collision
resolver carry that exactness as a hypothesis, and all concrete runs are
chosen so the radicands are exact squares).
-/

/-! ## Constants (from the `#define` block of src/main.c) -/

def SCREEN_WIDTH : ℚ := 1000
def SCREEN_HEIGHT : ℚ := 500
def TABLE_WIDTH : ℚ := 900
def TABLE_HEIGHT : ℚ := 450
def BALL_RADIUS : ℚ := 15
def BALL_DIAMETER : ℚ := BALL_RADIUS * 2
def NUM_BALLS : ℕ := 16
def POCKET_RADIUS : ℚ := 30

def FRICTION : ℚ := 992 / 1000
def CUE_POWER_MULTIPLIER : ℚ := 15 / 100
def MIN_VELOCITY : ℚ := 1 / 10

/-! ## Data model -/

/-- A 2D vector (`Vec2D` in the source). -/
structure Vec2 where
  x : ℚ
  y : ℚ
deriving DecidableEq, Repr

/-- A pool ball (`Ball` in the source).  The `SDL_Color` field is
render-only and opaque to the core, so it is not modelled. -/
structure Ball where
  id : ℕ
  isActive : Bool
  pos : Vec2
  vel : Vec2
deriving DecidableEq, Repr

/-- The game state (`GameState` in the source). -/
inductive GameState where
  | Aiming
  | Simulating
  | GameOver
deriving DecidableEq, Repr

/-- The mutable simulation state: the ball array `gBalls` and the state
variable `gCurrentState`. -/
structure SimState where
  balls : List Ball
  state : GameState
deriving DecidableEq, Repr

def defaultBall : Ball := { id := 0, isActive := false, pos := ⟨0, 0⟩, vel := ⟨0, 0⟩ }

/-- Read `gBalls[k]` (out-of-range reads return an inactive default,
which every loop of the source skips). -/
def getBall (bs : List Ball) (k : ℕ) : Ball := bs[k]?.getD defaultBall

/-! ## Rational square root -/

/-- Newton iteration for the integer square root (the classical
`guess → (guess + n / guess) / 2` loop), with an explicit fuel bound so
that the definition is structurally recursive and evaluates inside the
kernel. -/
def sqrtIter : ℕ → ℕ → ℕ → ℕ
  | 0, _, g => g
  | f + 1, n, g => if (g + n / g) / 2 < g then sqrtIter f n ((g + n / g) / 2) else g

/-- Integer square root by Newton iteration (the fuel 128 covers every
input below `2 ^ 128`, far beyond any value this model produces). -/
def natSqrt (n : ℕ) : ℕ := if n ≤ 1 then n else sqrtIter 128 n (n / 2)

/-- Rational model of the C `sqrt` call: exact whenever the (reduced)
numerator and denominator of the radicand are perfect squares, in
particular whenever the radicand is the square of a rational.  Every
general theorem about the collision resolver carries that exactness as
an explicit hypothesis, and every concrete run in this file is chosen so
that the radicands are exact squares. -/
def ratSqrt (q : ℚ) : ℚ := (natSqrt q.num.toNat : ℚ) / (natSqrt q.den : ℚ)

/-! ## Table geometry (from `setup_table` and step 4 of `update`) -/

def tableX : ℚ := (SCREEN_WIDTH - TABLE_WIDTH) / 2
def tableY : ℚ := (SCREEN_HEIGHT - TABLE_HEIGHT) / 2

/-- The six pockets (`gPockets`), corners plus long-side midpoints. -/
def gPockets : List Vec2 :=
  [⟨tableX, tableY⟩, ⟨tableX + TABLE_WIDTH / 2, tableY⟩, ⟨tableX + TABLE_WIDTH, tableY⟩,
   ⟨tableX, tableY + TABLE_HEIGHT⟩, ⟨tableX + TABLE_WIDTH / 2, tableY + TABLE_HEIGHT⟩,
   ⟨tableX + TABLE_WIDTH, tableY + TABLE_HEIGHT⟩]

/-- Inset cushion bounds from step 4 of `update` (`tableX1` etc.). -/
def tableX1 : ℚ := (SCREEN_WIDTH - TABLE_WIDTH) / 2 + BALL_RADIUS
def tableY1 : ℚ := (SCREEN_HEIGHT - TABLE_HEIGHT) / 2 + BALL_RADIUS
def tableX2 : ℚ := tableX1 + TABLE_WIDTH - BALL_DIAMETER
def tableY2 : ℚ := tableY1 + TABLE_HEIGHT - BALL_DIAMETER

/-! ## Integrator (steps 1–3 of `update`) -/

/-- Steps 1–3 of the per-ball loop of `update`: friction decay, position
update, and the low-speed snap to zero.  The returned `Bool` is this
ball's contribution to `ballsAreMoving`.  The C test
`sqrt(vx*vx+vy*vy) < MIN_VELOCITY` is embedded as
`vx*vx+vy*vy < MIN_VELOCITY*MIN_VELOCITY` (equivalent since
`MIN_VELOCITY ≥ 0`). -/
def integrate (b : Ball) : Ball × Bool :=
  let vx := b.vel.x * FRICTION
  let vy := b.vel.y * FRICTION
  let px := b.pos.x + vx
  let py := b.pos.y + vy
  if vx * vx + vy * vy < MIN_VELOCITY * MIN_VELOCITY then
    ({ b with pos := ⟨px, py⟩, vel := ⟨0, 0⟩ }, false)
  else
    ({ b with pos := ⟨px, py⟩, vel := ⟨vx, vy⟩ }, true)

/-! ## Boundary resolver (step 4 of `update`) -/

def clampLowX (b : Ball) : Ball :=
  if b.pos.x < tableX1 then { b with pos := ⟨tableX1, b.pos.y⟩, vel := ⟨-b.vel.x, b.vel.y⟩ } else b

def clampHighX (b : Ball) : Ball :=
  if b.pos.x > tableX2 then { b with pos := ⟨tableX2, b.pos.y⟩, vel := ⟨-b.vel.x, b.vel.y⟩ } else b

def clampLowY (b : Ball) : Ball :=
  if b.pos.y < tableY1 then { b with pos := ⟨b.pos.x, tableY1⟩, vel := ⟨b.vel.x, -b.vel.y⟩ } else b

def clampHighY (b : Ball) : Ball :=
  if b.pos.y > tableY2 then { b with pos := ⟨b.pos.x, tableY2⟩, vel := ⟨b.vel.x, -b.vel.y⟩ } else b

/-- Step 4 of `update`: the four independent axis-aligned cushion tests,
in source order (`x < tableX1`, `x > tableX2`, `y < tableY1`,
`y > tableY2`), each clamping the coordinate and negating (`*= -1`) the
matching velocity component. -/
def cushion (b : Ball) : Ball := clampHighY (clampLowY (clampHighX (clampLowX b)))

/-! ## Collision resolver (step 5 of `update`) -/

def pairDx (bi bj : Ball) : ℚ := bj.pos.x - bi.pos.x
def pairDy (bi bj : Ball) : ℚ := bj.pos.y - bi.pos.y
def pairDistSq (bi bj : Ball) : ℚ := pairDx bi bj * pairDx bi bj + pairDy bi bj * pairDy bi bj
def pairDist (bi bj : Ball) : ℚ := ratSqrt (pairDistSq bi bj)
def pairOverlap (bi bj : Ball) : ℚ := (BALL_DIAMETER - pairDist bi bj) / 2

/-- Collision normal x component, `nx = dx / dist` in the source (the
positional correction uses the identical expression `dx / dist`). -/
def normalX (bi bj : Ball) : ℚ := pairDx bi bj / pairDist bi bj

/-- Collision normal y component, `ny = dy / dist`. -/
def normalY (bi bj : Ball) : ℚ := pairDy bi bj / pairDist bi bj

/-- Dot product of a velocity with the collision normal of the pair
(`p1`/`p2` in the source). -/
def dotN (v : Vec2) (bi bj : Ball) : ℚ := v.x * normalX bi bj + v.y * normalY bi bj

/-- The body of the overlap branch of step 5: static resolution (each
ball moves half the overlap along the line of centers) followed by the
velocity exchange along the normal, both written on the pre-branch
values exactly as in the source (velocities are read before being
written; positions are read once at `dx`/`dy`). -/
def resolveHit (bi bj : Ball) : Ball × Ball :=
  ({ bi with
      pos := ⟨bi.pos.x - pairOverlap bi bj * normalX bi bj,
              bi.pos.y - pairOverlap bi bj * normalY bi bj⟩,
      vel := ⟨bi.vel.x + (dotN bj.vel bi bj - dotN bi.vel bi bj) * normalX bi bj,
              bi.vel.y + (dotN bj.vel bi bj - dotN bi.vel bi bj) * normalY bi bj⟩ },
   { bj with
      pos := ⟨bj.pos.x + pairOverlap bi bj * normalX bi bj,
              bj.pos.y + pairOverlap bi bj * normalY bi bj⟩,
      vel := ⟨bj.vel.x + (dotN bi.vel bi bj - dotN bj.vel bi bj) * normalX bi bj,
              bj.vel.y + (dotN bi.vel bi bj - dotN bj.vel bi bj) * normalY bi bj⟩ })

/-- One inner-loop iteration of step 5 for the pair `(i, j)`:
resolve if and only if `distSq < BALL_DIAMETER²`. -/
def resolvePair (bi bj : Ball) : Ball × Ball :=
  if pairDistSq bi bj < BALL_DIAMETER * BALL_DIAMETER then resolveHit bi bj else (bi, bj)

/-- The inner `j` loop of step 5 over an explicit index list: each
iteration skips inactive `gBalls[j]` (`continue`) and otherwise resolves
the pair in place, so later pairs see the updated balls. -/
def collideFold (i : ℕ) : List ℕ → List Ball → List Ball
  | [], bs => bs
  | j :: js, bs =>
    collideFold i js
      (if (getBall bs j).isActive then
        ((bs.set i (resolvePair (getBall bs i) (getBall bs j)).1).set j
          (resolvePair (getBall bs i) (getBall bs j)).2)
      else bs)

/-- Step 5 of `update` for ball `i`: the scan over `j = i+1 .. NUM_BALLS-1`. -/
def collideScan (bs : List Ball) (i : ℕ) : List Ball :=
  collideFold i (List.range' (i + 1) (NUM_BALLS - (i + 1))) bs

/-! ## Capture resolver (step 6 of `update`) -/

/-- One pocket test of step 6 for ball `i`.  The C test
`sqrt(dx*dx+dy*dy) < POCKET_RADIUS` is embedded squared.  On a hit the
ball is deactivated and, when its id is 8, the state becomes `GameOver`. -/
def pocketStep (i : ℕ) (acc : List Ball × GameState) (p : Vec2) : List Ball × GameState :=
  let b := getBall acc.1 i
  if (p.x - b.pos.x) * (p.x - b.pos.x) + (p.y - b.pos.y) * (p.y - b.pos.y) <
      POCKET_RADIUS * POCKET_RADIUS then
    (acc.1.set i { b with isActive := false },
     if b.id = 8 then GameState.GameOver else acc.2)
  else acc

/-- The loop of step 6 over an explicit pocket list. -/
def pocketFold (i : ℕ) : List Vec2 → List Ball × GameState → List Ball × GameState
  | [], acc => acc
  | p :: ps, acc => pocketFold i ps (pocketStep i acc p)

/-- Step 6 of `update` for ball `i`: the loop over the six pockets. -/
def pocketCheck (bs : List Ball) (i : ℕ) (st : GameState) : List Ball × GameState :=
  pocketFold i gPockets (bs, st)

/-! ## Simulation step (`update`) -/

/-- One iteration of the outer per-ball loop of `update` for index `i`:
skip inactive balls, otherwise integrate, cushion, run the pair scan and
the pocket loop, and accumulate `ballsAreMoving`. -/
def stepBall (acc : List Ball × Bool × GameState) (i : ℕ) : List Ball × Bool × GameState :=
  if (getBall acc.1 i).isActive then
    let p := integrate (getBall acc.1 i)
    let bs3 := collideScan (acc.1.set i (cushion p.1)) i
    let pc := pocketCheck bs3 i acc.2.2
    (pc.1, acc.2.1 || p.2, pc.2)
  else acc

/-- The outer per-ball loop of `update` over an explicit index list. -/
def tickFold : List ℕ → List Ball × Bool × GameState → List Ball × Bool × GameState
  | [], acc => acc
  | i :: is, acc => tickFold is (stepBall acc i)

/-- The full per-tick physics loop of `update` (balls in ascending index
order), returning the final ball array, the `ballsAreMoving` aggregate
and the (possibly `GameOver`) state. -/
def runTick (bs : List Ball) (st : GameState) : List Ball × Bool × GameState :=
  tickFold (List.range NUM_BALLS) (bs, false, st)

/-- `update`: a no-op unless the state is `Simulating`; afterwards, if no
ball is moving the state is overwritten with `Aiming`. -/
def update (s : SimState) : SimState :=
  if s.state = GameState.Simulating then
    { balls := (runTick s.balls s.state).1,
      state := if (runTick s.balls s.state).2.1 then (runTick s.balls s.state).2.2
               else GameState.Aiming }
  else s

/-! ## Shot handling (`handle_input`) -/

/-- The shoot branch of `handle_input`, with the already-decoded event
direction `(dx, dy)` (in the source, `dx = mouseX - gBalls[0].pos.x` and
likewise for `dy`): accepted only while aiming with an active cue ball;
sets the cue velocity to `(-dx, -dy) * CUE_POWER_MULTIPLIER` and starts
simulating. -/
def shoot (s : SimState) (dx dy : ℚ) : SimState :=
  if s.state = GameState.Aiming ∧ (getBall s.balls 0).isActive = true then
    { balls := s.balls.set 0
        { getBall s.balls 0 with
          vel := ⟨-dx * CUE_POWER_MULTIPLIER, -dy * CUE_POWER_MULTIPLIER⟩ },
      state := GameState.Simulating }
  else s

/-! ## Table setup (`setup_table`, `reset_game`) -/

/-- The rack seating order of `setup_table`. -/
def rackOrder : List ℕ := [1, 9, 15, 2, 8, 14, 3, 10, 7, 13, 4, 11, 6, 12, 5]

/-- The (row, col) seats visited by the nested rack loops of
`setup_table`, in source order (row outer, col inner, `col ≤ row`). -/
def rackSeats : List (ℕ × ℕ) :=
  [(0, 0), (1, 0), (1, 1), (2, 0), (2, 1), (2, 2), (3, 0), (3, 1), (3, 2), (3, 3),
   (4, 0), (4, 1), (4, 2), (4, 3), (4, 4)]

/-- `setup_table`: all sixteen balls active with zero velocity, the
fifteen object balls racked at
`(startX + row * ball_offset, startY + col * diameter - row * radius)`
with `startX = 750`, `startY = 250`, `ball_offset = diameter * 0.88`,
and the cue ball at `(250, 250)`. -/
def setupTable : List Ball :=
  let base := (List.range NUM_BALLS).map
    (fun i => { id := i, isActive := true, pos := ⟨0, 0⟩, vel := ⟨0, 0⟩ : Ball })
  let racked := (rackOrder.zip rackSeats).foldl
    (fun bs rc =>
      bs.set rc.1
        { getBall bs rc.1 with
          pos := ⟨SCREEN_WIDTH * (75 / 100) + (rc.2.1 : ℚ) * (BALL_DIAMETER * (88 / 100)),
                  SCREEN_HEIGHT / 2 + (rc.2.2 : ℚ) * BALL_DIAMETER - (rc.2.1 : ℚ) * BALL_RADIUS⟩ })
    base
  racked.set 0 { getBall racked 0 with pos := ⟨SCREEN_WIDTH * (25 / 100), SCREEN_HEIGHT / 2⟩ }

/-- `reset_game`: rebuild the table and return to `Aiming`. -/
def resetGame : SimState := { balls := setupTable, state := GameState.Aiming }

/-! ## The unguarded division of step 5 -/

/-- The condition under which the collision code of step 5 reaches its
divisions `dx / dist`, `dy / dist` with a zero denominator: the overlap
branch is taken while `dist = sqrt(distSq) = 0`, i.e. the two centers
coincide.  The source has no guard for this. -/
def collisionDivZero (bi bj : Ball) : Prop :=
  pairDistSq bi bj < BALL_DIAMETER * BALL_DIAMETER ∧ pairDist bi bj = 0

instance (bi bj : Ball) : Decidable (collisionDivZero bi bj) := by
  unfold collisionDivZero; infer_instance

/-! ## Concrete states used by the claim theorems, and invariant predicates -/

/-- What one or more pocket tests for ball `i` can do to the pair
(ball array, state): only ball `i` changes, its id is preserved, the
state either survives or becomes `GameOver`, and deactivating an
id-8 ball forces `GameOver`. -/
def PocketRel (i : ℕ) (a b : List Ball × GameState) : Prop :=
  b.1.length = a.1.length ∧
  (∀ k, k ≠ i → getBall b.1 k = getBall a.1 k) ∧
  (getBall b.1 i).id = (getBall a.1 i).id ∧
  (b.2 = a.2 ∨ b.2 = GameState.GameOver) ∧
  ((getBall a.1 i).id = 8 → (getBall a.1 i).isActive = true →
    (getBall b.1 i).isActive = false → b.2 = GameState.GameOver)

/-- Invariant of the per-ball loop relative to the tick-start ball array
`bs0` and state `st0`: lengths and ids are preserved, the state is
either still `st0` or `GameOver`, and if a ball that started the tick
active with id 8 is now inactive then the state is `GameOver`. -/
def TickInv (bs0 : List Ball) (st0 : GameState) (acc : List Ball × Bool × GameState) : Prop :=
  acc.1.length = bs0.length ∧
  (acc.2.2 = st0 ∨ acc.2.2 = GameState.GameOver) ∧
  (∀ k, (getBall acc.1 k).id = (getBall bs0 k).id) ∧
  (∀ k, (getBall bs0 k).id = 8 → (getBall bs0 k).isActive = true →
    (getBall acc.1 k).isActive = false → acc.2.2 = GameState.GameOver)

/-- An inactive (already captured) ball parked at the origin. -/
def idleBall (i : ℕ) : Ball := { id := i, isActive := false, pos := ⟨0, 0⟩, vel := ⟨0, 0⟩ }

/-- Mid-game state: the money ball creeps into the corner-pocket capture
region with sub-threshold speed while every other ball is already
captured. -/
def c1SlowSt : SimState :=
  { balls := (List.range 16).map (fun i =>
      if i = 8 then { id := 8, isActive := true, pos := ⟨65, 40⟩, vel := ⟨2 / 25, 0⟩ } else idleBall i),
    state := GameState.Simulating }

/-- Mid-game state: the money ball flies into the top-middle pocket at
full speed. -/
def c1FastSt : SimState :=
  { balls := (List.range 16).map (fun i =>
      if i = 8 then { id := 8, isActive := true, pos := ⟨500, 70⟩, vel := ⟨0, -20⟩ } else idleBall i),
    state := GameState.Simulating }

/-- Two active balls whose centers coincide exactly. -/
def c2b1 : Ball := { id := 1, isActive := true, pos := ⟨400, 250⟩, vel := ⟨2, 0⟩ }

/-- Second ball of the coincident pair. -/
def c2b2 : Ball := { id := 2, isActive := true, pos := ⟨400, 250⟩, vel := ⟨0, 0⟩ }

/-- The incoming ball of the head-on test pair: direction (1,0), speed 5. -/
def c3bi : Ball := { id := 1, isActive := true, pos := ⟨100, 250⟩, vel := ⟨5, 0⟩ }

/-- The resting ball of the head-on test pair. -/
def c3bj : Ball := { id := 2, isActive := true, pos := ⟨125, 250⟩, vel := ⟨0, 0⟩ }

/-- The first ball of the overlapping witness pair. -/
def c4bi : Ball := { id := 1, isActive := true, pos := ⟨400, 250⟩, vel := ⟨1, 2⟩ }

/-- The second ball of the overlapping witness pair, 20 units away. -/
def c4bj : Ball := { id := 2, isActive := true, pos := ⟨420, 250⟩, vel := ⟨-1, 0⟩ }

/-- Three collinear resting balls with the sequential-resolution chain:
resolving pair (1,2) and then pair (2,3) pushes ball 2 back toward
ball 1. -/
def c4ChainSt : SimState :=
  { balls := (List.range 16).map (fun i =>
      if i = 1 then { id := 1, isActive := true, pos := ⟨400, 250⟩, vel := ⟨0, 0⟩ }
      else if i = 2 then { id := 2, isActive := true, pos := ⟨420, 250⟩, vel := ⟨0, 0⟩ }
      else if i = 3 then { id := 3, isActive := true, pos := ⟨440, 250⟩, vel := ⟨0, 0⟩ }
      else idleBall i),
    state := GameState.Simulating }

/-- A lone, slowly creeping cue ball; every other ball is captured. -/
def c6St : SimState :=
  { balls := (List.range 16).map (fun i =>
      if i = 0 then { id := 0, isActive := true, pos := ⟨500, 250⟩, vel := ⟨1 / 20, 0⟩ }
      else idleBall i),
    state := GameState.Simulating }

/-- A game-over state with an active cue ball still on the table. -/
def c8OverSt : SimState :=
  { balls := [{ id := 0, isActive := true, pos := ⟨250, 250⟩, vel := ⟨0, 0⟩ }],
    state := GameState.GameOver }

/-- A mid-game state with a captured ball 3 and a moving cue ball. -/
def c9St : SimState :=
  { balls := (List.range 16).map (fun i =>
      if i = 0 then { id := 0, isActive := true, pos := ⟨300, 250⟩, vel := ⟨4, 0⟩ }
      else if i = 3 then { id := 3, isActive := false, pos := ⟨600, 200⟩, vel := ⟨0, 0⟩ }
      else idleBall i),
    state := GameState.Simulating }

/-- A ball resting exactly on the left inset bound while a second ball
flies at it; both start inside the bounds and more than one diameter
apart. -/
def c10St : SimState :=
  { balls := (List.range 16).map (fun i =>
      if i = 1 then { id := 1, isActive := true, pos := ⟨65, 250⟩, vel := ⟨0, 0⟩ }
      else if i = 2 then { id := 2, isActive := true, pos := ⟨99, 250⟩, vel := ⟨-3, 0⟩ }
      else idleBall i),
    state := GameState.Simulating }


/-! ## Access lemmas for `getBall` and `List.set` -/
lemma getBall_set_ne (bs : List Ball) (i k : ℕ) (b : Ball) (h : i ≠ k) :
    getBall (bs.set i b) k = getBall bs k := by
  simp [getBall, List.getElem?_set_ne h]

lemma getBall_set_self (bs : List Ball) (i : ℕ) (b : Ball) (h : i < bs.length) :
    getBall (bs.set i b) i = b := by
  simp [getBall, List.getElem?_set_eq_of_lt b h]

lemma getBall_set_pres (bs : List Ball) (i k : ℕ) (b : Ball)
    (hid : b.id = (getBall bs i).id) (hact : b.isActive = (getBall bs i).isActive) :
    (getBall (bs.set i b) k).id = (getBall bs k).id ∧
    (getBall (bs.set i b) k).isActive = (getBall bs k).isActive := by
  rcases eq_or_ne i k with rfl | hne
  · by_cases hlt : i < bs.length
    · rw [getBall_set_self bs i b hlt]; exact ⟨hid, hact⟩
    · rw [List.set_eq_of_length_le (Nat.le_of_not_lt hlt)]; exact ⟨rfl, rfl⟩
  · rw [getBall_set_ne bs i k b hne]; exact ⟨rfl, rfl⟩


/-! ## The physics operations preserve identity and activity -/
lemma integrate_id_active (b : Ball) :
    (integrate b).1.id = b.id ∧ (integrate b).1.isActive = b.isActive := by
  simp only [integrate]
  split <;> exact ⟨rfl, rfl⟩

lemma cushion_id_active (b : Ball) :
    (cushion b).id = b.id ∧ (cushion b).isActive = b.isActive := by
  simp only [cushion, clampLowX, clampHighX, clampLowY, clampHighY]
  split_ifs <;> exact ⟨rfl, rfl⟩

lemma resolvePair_id_active (bi bj : Ball) :
    (resolvePair bi bj).1.id = bi.id ∧ (resolvePair bi bj).1.isActive = bi.isActive ∧
    (resolvePair bi bj).2.id = bj.id ∧ (resolvePair bi bj).2.isActive = bj.isActive := by
  simp only [resolvePair, resolveHit]
  split <;> exact ⟨rfl, rfl, rfl, rfl⟩

lemma collideFold_pres (i : ℕ) (js : List ℕ) (k : ℕ) :
    ∀ bs : List Ball,
      (collideFold i js bs).length = bs.length ∧
      (getBall (collideFold i js bs) k).id = (getBall bs k).id ∧
      (getBall (collideFold i js bs) k).isActive = (getBall bs k).isActive := by
  induction js with
  | nil => exact fun bs => ⟨rfl, rfl, rfl⟩
  | cons j js ih =>
    intro bs
    rw [collideFold]
    split
    · rcases ih ((bs.set i (resolvePair (getBall bs i) (getBall bs j)).1).set j
        (resolvePair (getBall bs i) (getBall bs j)).2) with ⟨hl, hid, hact⟩
      refine ⟨by rw [hl]; simp, ?_, ?_⟩
      · rw [hid]
        have h1 := getBall_set_pres (bs.set i (resolvePair (getBall bs i) (getBall bs j)).1) j k
          (resolvePair (getBall bs i) (getBall bs j)).2 ?_ ?_
        · have h2 := getBall_set_pres bs i k (resolvePair (getBall bs i) (getBall bs j)).1
            (resolvePair_id_active _ _).1 (resolvePair_id_active _ _).2.1
          rw [h1.1, h2.1]
        · rcases eq_or_ne i j with rfl | hij
          · rw [(resolvePair_id_active _ _).2.2.1]
            exact ((getBall_set_pres bs i i _ (resolvePair_id_active _ _).1
              (resolvePair_id_active _ _).2.1).1).symm
          · rw [getBall_set_ne bs i j _ hij]
            exact (resolvePair_id_active _ _).2.2.1
        · rcases eq_or_ne i j with rfl | hij
          · rw [(resolvePair_id_active _ _).2.2.2]
            exact ((getBall_set_pres bs i i _ (resolvePair_id_active _ _).1
              (resolvePair_id_active _ _).2.1).2).symm
          · rw [getBall_set_ne bs i j _ hij]
            exact (resolvePair_id_active _ _).2.2.2
      · rw [hact]
        have h1 := getBall_set_pres (bs.set i (resolvePair (getBall bs i) (getBall bs j)).1) j k
          (resolvePair (getBall bs i) (getBall bs j)).2 ?_ ?_
        · have h2 := getBall_set_pres bs i k (resolvePair (getBall bs i) (getBall bs j)).1
            (resolvePair_id_active _ _).1 (resolvePair_id_active _ _).2.1
          rw [h1.2, h2.2]
        · rcases eq_or_ne i j with rfl | hij
          · rw [(resolvePair_id_active _ _).2.2.1]
            exact ((getBall_set_pres bs i i _ (resolvePair_id_active _ _).1
              (resolvePair_id_active _ _).2.1).1).symm
          · rw [getBall_set_ne bs i j _ hij]
            exact (resolvePair_id_active _ _).2.2.1
        · rcases eq_or_ne i j with rfl | hij
          · rw [(resolvePair_id_active _ _).2.2.2]
            exact ((getBall_set_pres bs i i _ (resolvePair_id_active _ _).1
              (resolvePair_id_active _ _).2.1).2).symm
          · rw [getBall_set_ne bs i j _ hij]
            exact (resolvePair_id_active _ _).2.2.2
    · exact ih bs


/-! ## Specification relation for the pocket loop -/
lemma pocketRel_refl (i : ℕ) (a : List Ball × GameState) : PocketRel i a a :=
  ⟨rfl, fun _ _ => rfl, rfl, Or.inl rfl, fun _ h2 h3 => by rw [h2] at h3; cases h3⟩

lemma pocketRel_trans (i : ℕ) (a b c : List Ball × GameState)
    (hab : PocketRel i a b) (hbc : PocketRel i b c) : PocketRel i a c := by
  obtain ⟨l1, k1, i1, s1, d1⟩ := hab
  obtain ⟨l2, k2, i2, s2, d2⟩ := hbc
  refine ⟨l2.trans l1, fun k hk => (k2 k hk).trans (k1 k hk), i2.trans i1, ?_, ?_⟩
  · rcases s2 with h | h
    · rw [h]; exact s1
    · exact Or.inr h
  · intro hid hact hdead
    cases hb : (getBall b.1 i).isActive with
    | false =>
      have := d1 hid hact hb
      rcases s2 with h | h
      · rw [h, this]
      · exact h
    | true => exact d2 (i1.trans hid) hb hdead

lemma pocketStep_rel (i : ℕ) (a : List Ball × GameState) (p : Vec2) :
    PocketRel i a (pocketStep i a p) := by
  simp only [pocketStep]
  split
  · refine ⟨by simp, fun k hk => getBall_set_ne _ i k _ (fun h => hk h.symm), ?_, ?_, ?_⟩
    · by_cases hlt : i < a.1.length
      · rw [getBall_set_self _ i _ hlt]
      · rw [List.set_eq_of_length_le (Nat.le_of_not_lt hlt)]
    · dsimp only
      split
      · exact Or.inr rfl
      · exact Or.inl rfl
    · intro hid _ _
      dsimp only
      rw [if_pos hid]
  · exact pocketRel_refl i a

lemma pocketFold_rel (i : ℕ) (ps : List Vec2) :
    ∀ a : List Ball × GameState, PocketRel i a (pocketFold i ps a) := by
  induction ps with
  | nil => exact fun a => pocketRel_refl i a
  | cons p ps ih =>
    intro a
    rw [pocketFold]
    exact pocketRel_trans i a (pocketStep i a p) _ (pocketStep_rel i a p) (ih _)


/-! ## Tick invariant: deactivating the id-8 ball forces `GameOver` -/
lemma stepBall_inv (bs0 : List Ball) (st0 : GameState) (acc : List Ball × Bool × GameState)
    (i : ℕ) (h : TickInv bs0 st0 acc) : TickInv bs0 st0 (stepBall acc i) := by
  obtain ⟨hlen, hst, hid, hdead⟩ := h
  simp only [stepBall]
  split
  case isFalse => exact ⟨hlen, hst, hid, hdead⟩
  case isTrue hact =>
    have hci := integrate_id_active (getBall acc.1 i)
    have hcc := cushion_id_active (integrate (getBall acc.1 i)).1
    have hset := fun k => getBall_set_pres acc.1 i k (cushion (integrate (getBall acc.1 i)).1)
      (hcc.1.trans hci.1) (hcc.2.trans hci.2)
    have hcf := fun k => collideFold_pres i (List.range' (i + 1) (NUM_BALLS - (i + 1))) k
      (acc.1.set i (cushion (integrate (getBall acc.1 i)).1))
    have hpr := pocketFold_rel i gPockets
      (collideScan (acc.1.set i (cushion (integrate (getBall acc.1 i)).1)) i, acc.2.2)
    obtain ⟨plen, pk, pid, pst, pdead⟩ := hpr
    have hl3 : (collideScan (acc.1.set i (cushion (integrate (getBall acc.1 i)).1)) i).length
        = acc.1.length := by
      rw [collideScan, (hcf 0).1, List.length_set]
    have hid3 : ∀ k, (getBall (collideScan (acc.1.set i (cushion (integrate
        (getBall acc.1 i)).1)) i) k).id = (getBall acc.1 k).id := by
      intro k
      rw [collideScan, (hcf k).2.1, (hset k).1]
    have hact3 : ∀ k, (getBall (collideScan (acc.1.set i (cushion (integrate
        (getBall acc.1 i)).1)) i) k).isActive = (getBall acc.1 k).isActive := by
      intro k
      rw [collideScan, (hcf k).2.2, (hset k).2]
    refine ⟨by rw [pocketCheck, plen, hl3, hlen], ?_, ?_, ?_⟩
    · rcases pst with hp | hp
      · rw [pocketCheck, hp]; exact hst
      · rw [pocketCheck]; exact Or.inr hp
    · intro k
      rcases eq_or_ne k i with rfl | hki
      · rw [pocketCheck, pid, hid3 k]; exact hid k
      · rw [pocketCheck, pk k hki, hid3 k]; exact hid k
    · intro k h8 ha hd
      rcases eq_or_ne k i with rfl | hki
      · rw [pocketCheck] at hd ⊢
        exact pdead (by rw [hid3 k]; exact (hid k).trans h8) (by rw [hact3 k]; exact hact) hd
      · rw [pocketCheck, pk k hki] at hd
        rw [hact3 k] at hd
        have := hdead k h8 ha hd
        rw [pocketCheck]
        rcases pst with hp | hp
        · rw [hp]; exact this
        · exact hp

lemma tickFold_inv (bs0 : List Ball) (st0 : GameState) (js : List ℕ) :
    ∀ acc, TickInv bs0 st0 acc → TickInv bs0 st0 (tickFold js acc) := by
  induction js with
  | nil => exact fun acc h => h
  | cons j js ih =>
    intro acc h
    rw [tickFold]
    exact ih _ (stepBall_inv bs0 st0 acc j h)


/-! ## Inactive balls are frozen -/
lemma collideFold_frozen (i : ℕ) (js : List ℕ) (k : ℕ) (hik : i ≠ k) :
    ∀ bs : List Ball, (getBall bs k).isActive = false →
      getBall (collideFold i js bs) k = getBall bs k := by
  induction js with
  | nil => exact fun bs _ => rfl
  | cons j js ih =>
    intro bs h
    rw [collideFold]
    by_cases hj : (getBall bs j).isActive = true
    · rw [if_pos hj]
      have hjk : j ≠ k := by rintro rfl; rw [h] at hj; cases hj
      have hkeep : getBall ((bs.set i (resolvePair (getBall bs i) (getBall bs j)).1).set j
          (resolvePair (getBall bs i) (getBall bs j)).2) k = getBall bs k := by
        rw [getBall_set_ne _ j k _ hjk, getBall_set_ne _ i k _ hik]
      rw [ih _ (by rw [hkeep]; exact h), hkeep]
    · rw [if_neg hj]
      exact ih bs h

lemma stepBall_frozen (acc : List Ball × Bool × GameState) (i k : ℕ)
    (h : (getBall acc.1 k).isActive = false) :
    getBall (stepBall acc i).1 k = getBall acc.1 k := by
  simp only [stepBall]
  split
  case isFalse => rfl
  case isTrue hact =>
    have hik : i ≠ k := by rintro rfl; rw [h] at hact; cases hact
    have h2 : getBall (acc.1.set i (cushion (integrate (getBall acc.1 i)).1)) k
        = getBall acc.1 k := getBall_set_ne _ i k _ hik
    have h3 := collideFold_frozen i (List.range' (i + 1) (NUM_BALLS - (i + 1))) k hik
      (acc.1.set i (cushion (integrate (getBall acc.1 i)).1)) (by rw [h2]; exact h)
    have h4 := (pocketFold_rel i gPockets
      (collideScan (acc.1.set i (cushion (integrate (getBall acc.1 i)).1)) i, acc.2.2)).2.1
      k (fun he => hik he.symm)
    rw [pocketCheck, h4, collideScan, h3, h2]

lemma tickFold_frozen (js : List ℕ) :
    ∀ acc : List Ball × Bool × GameState, ∀ k, (getBall acc.1 k).isActive = false →
      getBall (tickFold js acc).1 k = getBall acc.1 k := by
  induction js with
  | nil => exact fun _ _ _ => rfl
  | cons j js ih =>
    intro acc k h
    rw [tickFold]
    have h1 := stepBall_frozen acc j k h
    rw [ih (stepBall acc j) k (by rw [h1]; exact h), h1]

lemma update_frozen (s : SimState) (k : ℕ) (h : (getBall s.balls k).isActive = false) :
    getBall (update s).balls k = getBall s.balls k := by
  unfold update
  split
  · dsimp only
    rw [runTick]
    exact tickFold_frozen (List.range NUM_BALLS) (s.balls, false, s.state) k h
  · rfl


/-! ## Geometry of a resolved pair -/
lemma pairDist_ne_zero (bi bj : Ball) (hpos : 0 < pairDistSq bi bj)
    (hex : pairDist bi bj * pairDist bi bj = pairDistSq bi bj) : pairDist bi bj ≠ 0 := by
  intro h0
  rw [h0, mul_zero] at hex
  exact absurd hex.symm (ne_of_gt hpos)

lemma normal_unit (bi bj : Ball) (hpos : 0 < pairDistSq bi bj)
    (hex : pairDist bi bj * pairDist bi bj = pairDistSq bi bj) :
    normalX bi bj * normalX bi bj + normalY bi bj * normalY bi bj = 1 := by
  have hd0 := pairDist_ne_zero bi bj hpos hex
  unfold normalX normalY
  field_simp
  unfold pairDistSq at hex
  linarith [hex]


/-! ## Concrete game states used by the claim theorems -/
/-- C1, counterexample: a tick in which the capture resolver deactivates
the money ball (id 8) but no ball is left above the speed threshold; the
end-of-tick settle branch (`if (!ballsAreMoving)`) overwrites
`STATE_GAME_OVER` with `STATE_AIMING`, so the state at the end of the
tick is Aiming, not Over — refuting the claim as stated. -/
theorem c1_slow_capture_ends_aiming :
    (getBall c1SlowSt.balls 8).id = 8 ∧
    (getBall c1SlowSt.balls 8).isActive = true ∧
    c1SlowSt.state = GameState.Simulating ∧
    (getBall (update c1SlowSt).balls 8).isActive = false ∧
    (update c1SlowSt).state = GameState.Aiming := by decide

/-- C1, amended: in every tick that deactivates the money ball (id 8),
the state at the end of the tick is Over provided at least one ball was
still reported moving during the tick; when no ball is reported moving,
the final settle branch overwrites Over with Aiming instead. -/
theorem c1_moneyball_capture_over_when_moving (s : SimState) (k : ℕ)
    (hst : s.state = GameState.Simulating)
    (hid : (getBall s.balls k).id = 8)
    (hact : (getBall s.balls k).isActive = true)
    (hdead : (getBall (runTick s.balls s.state).1 k).isActive = false) :
    ((runTick s.balls s.state).2.1 = true → (update s).state = GameState.GameOver) ∧
    ((runTick s.balls s.state).2.1 = false → (update s).state = GameState.Aiming) := by
  have hinv := tickFold_inv s.balls s.state (List.range NUM_BALLS) (s.balls, false, s.state)
    ⟨rfl, Or.inl rfl, fun _ => rfl, fun k2 _ ha hd => by rw [ha] at hd; cases hd⟩
  rw [runTick] at hdead
  obtain ⟨-, -, -, hdead2⟩ := hinv
  have hgo := hdead2 k hid hact hdead
  constructor
  · intro hmv
    rw [runTick] at hmv
    unfold update
    rw [if_pos hst]
    dsimp only
    rw [runTick, hmv, hgo]
    rfl
  · intro hmv
    rw [runTick] at hmv
    unfold update
    rw [if_pos hst]
    dsimp only
    rw [runTick, hmv]
    rfl

/-- C1, witness for the amended theorem: the fast capture of the money
ball ends the tick in `GameOver`. -/
theorem c1_moneyball_capture_witness : (update c1FastSt).state = GameState.GameOver :=
  (c1_moneyball_capture_over_when_moving c1FastSt 8 rfl (by decide) (by decide)
    (by decide)).1 (by decide)


/-! ## C2: the unguarded zero-distance division -/
/-- C2: for a pair of active balls with exactly coincident centers the
overlap branch of step 5 is entered (`distSq = 0 < diameter²`) and the
collision-normal divisions `dx / dist`, `dy / dist` are reached with
`dist = sqrt(0) = 0` — the source has no guard, so the claimed
skip-this-pair behaviour does not exist and the division by zero does
occur. -/
theorem c2_coincident_centers_reach_zero_division :
    c2b1.pos = c2b2.pos ∧ c2b1.isActive = true ∧ c2b2.isActive = true ∧
    collisionDivZero c2b1 c2b2 := by decide


/-! ## C3: equal-mass elastic velocity exchange -/
/-- C3: for an overlapping resolved pair (with the square root of the
squared distance exact and the distance positive), the velocity
components along the collision normal are swapped, the components
perpendicular to the normal are unchanged for both balls, and when the
second ball is at rest the first ball's normal component becomes zero
while the second ball acquires exactly the first ball's full normal
velocity. -/
theorem c3_velocity_exchange (bi bj : Ball)
    (hover : pairDistSq bi bj < BALL_DIAMETER * BALL_DIAMETER)
    (hpos : 0 < pairDistSq bi bj)
    (hex : pairDist bi bj * pairDist bi bj = pairDistSq bi bj) :
    dotN (resolvePair bi bj).1.vel bi bj = dotN bj.vel bi bj ∧
    dotN (resolvePair bi bj).2.vel bi bj = dotN bi.vel bi bj ∧
    (resolvePair bi bj).1.vel.x * (-(normalY bi bj)) + (resolvePair bi bj).1.vel.y * normalX bi bj
      = bi.vel.x * (-(normalY bi bj)) + bi.vel.y * normalX bi bj ∧
    (resolvePair bi bj).2.vel.x * (-(normalY bi bj)) + (resolvePair bi bj).2.vel.y * normalX bi bj
      = bj.vel.x * (-(normalY bi bj)) + bj.vel.y * normalX bi bj ∧
    (bj.vel = ⟨0, 0⟩ →
      dotN (resolvePair bi bj).1.vel bi bj = 0 ∧
      (resolvePair bi bj).2.vel = ⟨dotN bi.vel bi bj * normalX bi bj,
                                   dotN bi.vel bi bj * normalY bi bj⟩) := by
  have hnn := normal_unit bi bj hpos hex
  unfold resolvePair
  rw [if_pos hover]
  unfold resolveHit
  dsimp only
  refine ⟨?_, ?_, by ring, by ring, ?_⟩
  · unfold dotN
    linear_combination (bj.vel.x * normalX bi bj + bj.vel.y * normalY bi bj
      - bi.vel.x * normalX bi bj - bi.vel.y * normalY bi bj) * hnn
  · unfold dotN
    linear_combination (bi.vel.x * normalX bi bj + bi.vel.y * normalY bi bj
      - bj.vel.x * normalX bi bj - bj.vel.y * normalY bi bj) * hnn
  · intro hrest
    rw [hrest]
    unfold dotN
    dsimp only
    constructor
    · linear_combination (-(bi.vel.x * normalX bi bj + bi.vel.y * normalY bi bj)) * hnn
    · simp only [Vec2.mk.injEq]
      constructor <;> ring

/-- C3 witness: the head-on equal-mass collision with the resting ball. -/
theorem c3_velocity_exchange_witness :
    dotN (resolvePair c3bi c3bj).1.vel c3bi c3bj = dotN c3bj.vel c3bi c3bj ∧
    (resolvePair c3bi c3bj).2.vel = ⟨dotN c3bi.vel c3bi c3bj * normalX c3bi c3bj,
                                     dotN c3bi.vel c3bi c3bj * normalY c3bi c3bj⟩ :=
  ⟨(c3_velocity_exchange c3bi c3bj (by decide) (by decide) (by decide)).1,
   ((c3_velocity_exchange c3bi c3bj (by decide) (by decide) (by decide)).2.2.2.2
      (by decide)).2⟩


/-! ## C4: positional correction -/
/-- C4, amended: the positional correction moves each ball of the
resolved pair exactly half the overlap along the line of centers, and at
the moment of resolution the corrected pair's center distance is exactly
one diameter (given an exact square root and a positive distance).  The
claim's further assertion — that after the collision resolver has run
for a whole tick every pair of active balls is at least one diameter
apart — is false; see the counterexample. -/
theorem c4_positional_correction (bi bj : Ball)
    (hover : pairDistSq bi bj < BALL_DIAMETER * BALL_DIAMETER)
    (hpos : 0 < pairDistSq bi bj)
    (hex : pairDist bi bj * pairDist bi bj = pairDistSq bi bj) :
    (resolvePair bi bj).1.pos.x = bi.pos.x - pairOverlap bi bj * normalX bi bj ∧
    (resolvePair bi bj).1.pos.y = bi.pos.y - pairOverlap bi bj * normalY bi bj ∧
    (resolvePair bi bj).2.pos.x = bj.pos.x + pairOverlap bi bj * normalX bi bj ∧
    (resolvePair bi bj).2.pos.y = bj.pos.y + pairOverlap bi bj * normalY bi bj ∧
    pairDistSq (resolvePair bi bj).1 (resolvePair bi bj).2 = BALL_DIAMETER * BALL_DIAMETER ∧
    pairDist (resolvePair bi bj).1 (resolvePair bi bj).2 = BALL_DIAMETER := by
  have hd0 := pairDist_ne_zero bi bj hpos hex
  have hh : resolvePair bi bj = resolveHit bi bj := by
    unfold resolvePair
    rw [if_pos hover]
  have hkey : pairDistSq (resolvePair bi bj).1 (resolvePair bi bj).2
      = BALL_DIAMETER * BALL_DIAMETER := by
    rw [hh]
    simp only [resolveHit, pairDistSq, pairDx, pairDy, pairOverlap, normalX, normalY]
    simp only [pairDistSq, pairDx, pairDy] at hex
    field_simp
    linear_combination (-4 * (BALL_DIAMETER * BALL_DIAMETER)) * hex
  have h6 : pairDist (resolvePair bi bj).1 (resolvePair bi bj).2 = BALL_DIAMETER := by
    unfold pairDist
    rw [hkey]
    decide
  exact ⟨by rw [hh]; rfl, by rw [hh]; rfl, by rw [hh]; rfl, by rw [hh]; rfl, hkey, h6⟩

/-- C4 witness: a concrete overlapping pair ends the resolution exactly
one diameter apart. -/
theorem c4_positional_correction_witness :
    pairDistSq (resolvePair c4bi c4bj).1 (resolvePair c4bi c4bj).2
      = BALL_DIAMETER * BALL_DIAMETER ∧
    pairDist (resolvePair c4bi c4bj).1 (resolvePair c4bi c4bj).2 = BALL_DIAMETER :=
  ⟨(c4_positional_correction c4bi c4bj (by decide) (by decide) (by decide)).2.2.2.2.1,
   (c4_positional_correction c4bi c4bj (by decide) (by decide) (by decide)).2.2.2.2.2⟩

/-- C4, counterexample to the end-of-tick non-penetration part: after a
full tick on the three-ball chain, the active balls 1 and 2 are left
closer than one diameter (22.5 < 30), because the later resolution of
pair (2,3) pushed ball 2 back toward the already-resolved ball 1. -/
theorem c4_post_tick_overlap :
    (getBall (update c4ChainSt).balls 1).isActive = true ∧
    (getBall (update c4ChainSt).balls 2).isActive = true ∧
    pairDistSq (getBall (update c4ChainSt).balls 1) (getBall (update c4ChainSt).balls 2) <
      BALL_DIAMETER * BALL_DIAMETER := by decide


/-! ## C5: boundary clamping and reflection -/
lemma tableX1_le_tableX2 : tableX1 ≤ tableX2 := by
  norm_num [tableX1, tableX2, SCREEN_WIDTH, TABLE_WIDTH, BALL_RADIUS, BALL_DIAMETER]

lemma tableY1_le_tableY2 : tableY1 ≤ tableY2 := by
  norm_num [tableY1, tableY2, SCREEN_HEIGHT, TABLE_HEIGHT, BALL_RADIUS, BALL_DIAMETER]

/-- C5: for each of the four inset bounds, a crossed bound is clamped
exactly to the bound with the matching velocity component negated, an
uncrossed axis is untouched, the two axes act independently (so both can
reflect in the same tick), and after the boundary resolver the center
lies inside the inset bounds. -/
theorem c5_cushion_reflects (b : Ball) :
    ((cushion b).pos.x = if b.pos.x < tableX1 then tableX1
      else if b.pos.x > tableX2 then tableX2 else b.pos.x) ∧
    ((cushion b).vel.x = if b.pos.x < tableX1 then -b.vel.x
      else if b.pos.x > tableX2 then -b.vel.x else b.vel.x) ∧
    ((cushion b).pos.y = if b.pos.y < tableY1 then tableY1
      else if b.pos.y > tableY2 then tableY2 else b.pos.y) ∧
    ((cushion b).vel.y = if b.pos.y < tableY1 then -b.vel.y
      else if b.pos.y > tableY2 then -b.vel.y else b.vel.y) ∧
    tableX1 ≤ (cushion b).pos.x ∧ (cushion b).pos.x ≤ tableX2 ∧
    tableY1 ≤ (cushion b).pos.y ∧ (cushion b).pos.y ≤ tableY2 := by
  have hx := tableX1_le_tableX2
  have hy := tableY1_le_tableY2
  simp only [cushion, clampLowX, clampHighX, clampLowY, clampHighY]
  split_ifs <;> simp_all <;> linarith


/-! ## C6: settling back to Aiming -/
/-- C6: in a simulating tick in which no ball is reported moving (the
per-ball post-friction speed test `speed < MIN_VELOCITY` succeeded for
every active ball, which is exactly `ballsAreMoving = false`), the state
at the end of the tick is `Aiming`; and whenever the integrator reports
a ball as not moving it has snapped that ball's velocity to exactly
zero. -/
theorem c6_settling_to_aiming (s : SimState)
    (hst : s.state = GameState.Simulating)
    (hmv : (runTick s.balls s.state).2.1 = false) :
    (update s).state = GameState.Aiming ∧
    (∀ b : Ball, (integrate b).2 = false → (integrate b).1.vel = ⟨0, 0⟩) := by
  constructor
  · unfold update
    rw [if_pos hst]
    dsimp only
    rw [hmv]
    rfl
  · intro b h
    by_cases hc : b.vel.x * FRICTION * (b.vel.x * FRICTION)
        + b.vel.y * FRICTION * (b.vel.y * FRICTION) < MIN_VELOCITY * MIN_VELOCITY
    · simp [integrate, hc]
    · exfalso
      simp [integrate, hc] at h

/-- C6 witness: the slow cue ball settles and the tick ends in Aiming;
its integration step snaps the velocity to zero. -/
theorem c6_settling_witness :
    (update c6St).state = GameState.Aiming ∧
    (integrate { id := 0, isActive := true, pos := ⟨500, 250⟩, vel := ⟨1 / 20, 0⟩ }).1.vel
      = ⟨0, 0⟩ :=
  ⟨(c6_settling_to_aiming c6St rfl (by decide)).1,
   (c6_settling_to_aiming c6St rfl (by decide)).2 _ (by decide)⟩


/-! ## C7: shot scaling -/
/-- C7: a shoot event with direction `(dx, dy)`, received while aiming
with an active cue ball, sets the cue velocity to `(-dx, -dy)` scaled by
the power constant and transitions the state to `Simulating`. -/
theorem c7_shoot_scaling (s : SimState) (dx dy : ℚ)
    (hst : s.state = GameState.Aiming)
    (hact : (getBall s.balls 0).isActive = true)
    (hlen : 0 < s.balls.length) :
    (shoot s dx dy).state = GameState.Simulating ∧
    (getBall (shoot s dx dy).balls 0).vel =
      ⟨-dx * CUE_POWER_MULTIPLIER, -dy * CUE_POWER_MULTIPLIER⟩ := by
  unfold shoot
  rw [if_pos ⟨hst, hact⟩]
  refine ⟨rfl, ?_⟩
  dsimp only
  rw [getBall_set_self s.balls 0 _ hlen]

/-- C7 witness: `Shoot(100, 0)` from the freshly racked table gives the
cue ball velocity `(-15, 0) = (-100 * 0.15, 0)` and starts simulating. -/
theorem c7_shoot_scaling_witness :
    (shoot resetGame 100 0).state = GameState.Simulating ∧
    (getBall (shoot resetGame 100 0).balls 0).vel = ⟨-15, 0⟩ := by
  have h := c7_shoot_scaling resetGame 100 0 rfl (by decide) (by decide)
  exact ⟨h.1, by rw [h.2]; decide⟩


/-! ## C8: invalid shoot events are ignored -/
/-- C8: a shoot event received while not aiming or with an inactive cue
ball leaves the whole state (every ball and the game state) unchanged;
in particular in `GameOver` both shoot events and ticks are no-ops, and
the reset operation is what returns to `Aiming`. -/
theorem c8_shoot_ignored (s : SimState) (dx dy : ℚ) :
    (¬ (s.state = GameState.Aiming ∧ (getBall s.balls 0).isActive = true) →
      shoot s dx dy = s) ∧
    (s.state = GameState.GameOver → shoot s dx dy = s ∧ update s = s) ∧
    resetGame.state = GameState.Aiming := by
  refine ⟨?_, ?_, rfl⟩
  · intro h
    unfold shoot
    rw [if_neg h]
  · intro h
    refine ⟨?_, ?_⟩
    · unfold shoot
      rw [if_neg]
      rintro ⟨h1, -⟩
      rw [h] at h1
      cases h1
    · unfold update
      rw [if_neg (show ¬s.state = GameState.Simulating by rw [h]; decide)]

/-- C8 witness: in the game-over state a shoot event and a tick are both
no-ops. -/
theorem c8_shoot_ignored_witness :
    shoot c8OverSt 3 4 = c8OverSt ∧ update c8OverSt = c8OverSt :=
  (c8_shoot_ignored c8OverSt 3 4).2.1 rfl


/-! ## C9: captured balls stay frozen -/
/-- C9: a ball whose active flag is false is completely unchanged by
every further tick (no re-activation, no motion): the integration,
boundary, collision and capture loops all skip it. -/
theorem c9_inactive_ball_frozen (s : SimState) (k n : ℕ)
    (h : (getBall s.balls k).isActive = false) :
    getBall ((update^[n]) s).balls k = getBall s.balls k := by
  induction n with
  | zero => rfl
  | succ m ih =>
    rw [Function.iterate_succ_apply',
      update_frozen ((update^[m]) s) k (by rw [ih]; exact h), ih]

/-- C9 witness: two ticks later the captured ball 3 is bit-identical. -/
theorem c9_inactive_ball_frozen_witness :
    getBall ((update^[2]) c9St).balls 3 = getBall c9St.balls 3 :=
  c9_inactive_ball_frozen c9St 3 2 (by decide)


/-! ## C10: the clamp-before-push ordering lets a ball end a tick
outside the inset bounds -/
/-- C10: starting from a configuration with every active ball inside the
inset bounds and no overlap, three ordinary ticks leave the active
ball 1 with its center strictly outside the inset bounds: ball 1's
boundary clamp runs before the pair scan, and the half-overlap push from
resolving pair (1,2) later in the same tick moves ball 1 past the left
bound with no re-clamp until the next tick. -/
theorem c10_escapes_bounds_after_tick :
    (tableX1 ≤ (getBall c10St.balls 1).pos.x ∧ (getBall c10St.balls 1).pos.x ≤ tableX2 ∧
     tableY1 ≤ (getBall c10St.balls 1).pos.y ∧ (getBall c10St.balls 1).pos.y ≤ tableY2 ∧
     tableX1 ≤ (getBall c10St.balls 2).pos.x ∧ (getBall c10St.balls 2).pos.x ≤ tableX2 ∧
     tableY1 ≤ (getBall c10St.balls 2).pos.y ∧ (getBall c10St.balls 2).pos.y ≤ tableY2) ∧
    BALL_DIAMETER * BALL_DIAMETER ≤ pairDistSq (getBall c10St.balls 1) (getBall c10St.balls 2) ∧
    (getBall ((update^[3]) c10St).balls 1).isActive = true ∧
    (getBall ((update^[3]) c10St).balls 1).pos.x < tableX1 := by decide

